import Mathlib

/-!
Verification of `src/pkg/placeholder/example/hello.c`.

The program consists of one constant,

  const char magic_comment[] = "us1-r/GZ...TA==";

tagged with a platform-dependent section attribute (Mach-O note section on
Apple targets, ELF note section elsewhere), and one function

  int main() { printf("Hello, world!\n"); return 0; }

We embed the constant as its list of bytes (a C array initialized from a
string literal holds the literal characters followed by the NUL terminator),
the section attribute selection as a function on build targets (the
preprocessor condition is `defined(__APPLE__) && defined(__MACH__)`), and
`main` as a two-statement program run on a small machine whose state records
standard output, the constant's storage, and an opaque I/O environment value
standing for everything `printf` could observe or return (in particular its
return value on output failure, which `main` discards).
-/

namespace Hello

/-- The string literal that initializes `magic_comment` in hello.c. -/
def magic_comment_literal : String :=
  "us1-r/GZBm1d749E+KbBLWaEnR5fNz626Deutp0P9F4ICt5EOqGw+DeMQUNHb5TLBt+gol0p82zcb9sMDO+Ai7e2TA=="

/-- The bytes of a string; every character in this program is ASCII, so one
byte per character. -/
def strBytes (s : String) : List Nat := s.data.map Char.toNat

/-- The contents of the C array `const char magic_comment[]`: the bytes of
the initializing string literal followed by the NUL terminator that the C
initializer appends. -/
def magic_comment : List Nat := strBytes magic_comment_literal ++ [0]

/-- A build target, characterized by which of the two preprocessor macros
tested in hello.c are defined. -/
structure BuildTarget where
  apple : Bool
  mach : Bool
deriving DecidableEq

/-- The preprocessor condition `defined(__APPLE__) && defined(__MACH__)`. -/
def isAppleMachO (t : BuildTarget) : Bool := t.apple && t.mach

/-- A section attribute: either a Mach-O segment/section pair or an ELF
section name. -/
inductive SectionAttr where
  | machoSection (segment : String) (sect : String)
  | elfSection (sectionName : String)
deriving DecidableEq

/-- The section attribute attached to `magic_comment`, as selected by the
`#if` / `#else` in hello.c. -/
def magic_comment_section (t : BuildTarget) : SectionAttr :=
  if isAppleMachO t then SectionAttr.machoSection "__NOTE" "__unisign"
  else SectionAttr.elfSection ".note.unisign"

/-- The byte content placed in the selected section: on every build target
the same array `magic_comment` is emitted. -/
def magic_comment_content (_t : BuildTarget) : List Nat := magic_comment

/-- Modelled from the spec: the External Interfaces section requires, per
platform family, the platform-appropriate section name (segment `__NOTE`,
section `__unisign` on Apple/Mach-O targets; section `.note.unisign` on
other/ELF targets). -/
def specExpectedSection (t : BuildTarget) : SectionAttr :=
  if isAppleMachO t then SectionAttr.machoSection "__NOTE" "__unisign"
  else SectionAttr.elfSection ".note.unisign"

/-- The statements of `main`. -/
inductive Stmt where
  | printfStmt (s : String)
  | ret (code : Int)
deriving DecidableEq

/-- The body of `main` in hello.c: one printf call, then `return 0`. -/
def mainProg : List Stmt := [Stmt.printfStmt "Hello, world!\n", Stmt.ret 0]

/-- Machine state for running `main`. `env` is an opaque value describing
the I/O environment (in particular whether the print operation fails: a
negative value stands for an environment in which `printf` reports failure
through its return value). `main` never reads it. `magic` is the storage of
the global `magic_comment`. -/
structure Machine where
  env : Int
  magic : List Nat
  stdoutBytes : List Nat
  pc : Nat
  exited : Option Int
deriving DecidableEq

/-- The state at program start: `magic_comment` holds its compile-time
value, nothing has been printed, execution is at the first statement. -/
def initMachine (env : Int) : Machine :=
  { env := env, magic := magic_comment, stdoutBytes := [], pc := 0, exited := none }

/-- One execution step. A printf statement appends the bytes of its format
string (no conversions are present) to standard output; its return value is
determined by the environment and discarded, so it does not appear in the
state transition. `return c` records the exit status. A halted machine does
not move. -/
def step (m : Machine) : Machine :=
  match m.exited with
  | some _ => m
  | none =>
    match mainProg[m.pc]? with
    | some (Stmt.printfStmt s) =>
        { m with stdoutBytes := m.stdoutBytes ++ strBytes s, pc := m.pc + 1 }
    | some (Stmt.ret c) => { m with exited := some c }
    | none => m

/-- `n` execution steps. -/
def stepN : Nat → Machine → Machine
  | 0, m => m
  | n + 1, m => stepN n (step m)

/-- The complete run of `main`: its two statements. -/
def runMain (env : Int) : Machine := stepN 2 (initMachine env)

/-- A halted machine stays put under `step`. -/
theorem step_of_exited (m : Machine) (c : Int) (h : m.exited = some c) :
    step m = m := by
  unfold step
  rw [h]

/-- A halted machine stays put under any number of steps. -/
theorem stepN_of_exited (k : Nat) (m : Machine) (c : Int) (h : m.exited = some c) :
    stepN k m = m := by
  induction k with
  | zero => rfl
  | succ n ih =>
      show stepN n (step m) = m
      rw [step_of_exited m c h, ih]

/-- After the two statements of `main`, the machine has printed the hello
bytes and exited with status 0, whatever the environment. -/
theorem runMain_eq (env : Int) :
    runMain env =
      { env := env, magic := magic_comment,
        stdoutBytes := strBytes "Hello, world!\n", pc := 1, exited := some 0 } := rfl

/-- `step` never changes the storage of `magic_comment`. -/
theorem step_magic (m : Machine) : (step m).magic = m.magic := by
  unfold step
  split
  · rfl
  · split <;> rfl

/-- Iterated steps never change the storage of `magic_comment`. -/
theorem stepN_magic (n : Nat) (m : Machine) : (stepN n m).magic = m.magic := by
  induction n generalizing m with
  | zero => rfl
  | succ k ih =>
      show (stepN k (step m)).magic = m.magic
      rw [ih (step m), step_magic]

/-- Claim C1: every execution writes exactly the byte sequence
`Hello, world!\n` to standard output and terminates with exit status 0:
for every environment value and for every step count from the point the run
completes onwards, standard output holds exactly those bytes and the exit
status is 0. -/
theorem hello_stdout_and_exit (env : Int) (n : Nat) (h : 2 ≤ n) :
    (stepN n (initMachine env)).stdoutBytes = strBytes "Hello, world!\n" ∧
    (stepN n (initMachine env)).exited = some 0 := by
  obtain ⟨k, rfl⟩ := Nat.exists_eq_add_of_le h
  have h2 : stepN (2 + k) (initMachine env) = runMain env := by
    rw [Nat.add_comm]
    show stepN k (step (step (initMachine env))) = runMain env
    exact stepN_of_exited k _ 0 rfl
  rw [h2]
  exact ⟨rfl, rfl⟩

/-- Witness for claim C1 at environment 0 and step count 2. -/
theorem hello_stdout_and_exit_witness :
    2 ≤ 2 ∧
    ((stepN 2 (initMachine 0)).stdoutBytes = strBytes "Hello, world!\n" ∧
     (stepN 2 (initMachine 0)).exited = some 0) :=
  ⟨by decide, hello_stdout_and_exit 0 2 (by decide)⟩

/-- Claim C2: the embedded blob is the source literal embedded verbatim: its
first 92 bytes are exactly the bytes of the literal string, followed only by
the NUL terminator that belongs to the C string literal, and the very same
bytes are the section content on every build target. -/
theorem magic_comment_embedded_verbatim :
    magic_comment = strBytes magic_comment_literal ++ [0] ∧
    magic_comment.take 92 = strBytes magic_comment_literal ∧
    magic_comment.drop 92 = [0] ∧
    ∀ t : BuildTarget, magic_comment_content t = magic_comment :=
  ⟨rfl, by decide, by decide, fun _ => rfl⟩

/-- Claim C3: `magic_comment` is tagged with segment `__NOTE`, section
`__unisign` exactly when `__APPLE__` and `__MACH__` are both defined, with
section `.note.unisign` otherwise, and on every build target exactly one of
the two attributes applies. -/
theorem magic_comment_section_placement :
    ∀ t : BuildTarget,
      (isAppleMachO t = true →
        magic_comment_section t = SectionAttr.machoSection "__NOTE" "__unisign") ∧
      (isAppleMachO t = false →
        magic_comment_section t = SectionAttr.elfSection ".note.unisign") ∧
      ((magic_comment_section t = SectionAttr.machoSection "__NOTE" "__unisign" ∧
        magic_comment_section t ≠ SectionAttr.elfSection ".note.unisign") ∨
       (magic_comment_section t = SectionAttr.elfSection ".note.unisign" ∧
        magic_comment_section t ≠ SectionAttr.machoSection "__NOTE" "__unisign")) := by
  rintro ⟨a, m⟩
  cases a <;> cases m <;> decide

/-- Witness for claim C3 at the Apple/Mach-O target. -/
theorem magic_comment_section_placement_witness :
    isAppleMachO ⟨true, true⟩ = true ∧
    magic_comment_section ⟨true, true⟩ = SectionAttr.machoSection "__NOTE" "__unisign" :=
  ⟨by decide, (magic_comment_section_placement ⟨true, true⟩).1 (by decide)⟩

/-- Claim C4: across all build targets the section content is identical, and
every target receives the platform-appropriate section name required by the
spec. -/
theorem cross_platform_section_consistency :
    (∀ t1 t2 : BuildTarget, magic_comment_content t1 = magic_comment_content t2) ∧
    (∀ t : BuildTarget, magic_comment_section t = specExpectedSection t) :=
  ⟨fun _ _ => rfl, fun _ => rfl⟩

/-- Claim C5: the exit status is 0 for every environment, in particular for
every environment in which the print operation fails (negative environment
value): `main` has no branch inspecting the result of `printf`. -/
theorem exit_status_unconditionally_zero :
    ∀ env : Int, (runMain env).exited = some 0 ∧
      (env < 0 → (runMain env).exited = some 0) :=
  fun _ => ⟨rfl, fun _ => rfl⟩

/-- Witness for claim C5 at a failing-print environment. -/
theorem exit_status_unconditionally_zero_witness :
    (-1 : Int) < 0 ∧ (runMain (-1)).exited = some 0 :=
  ⟨by decide, (exit_status_unconditionally_zero (-1)).2 (by decide)⟩

/-- Claim C6: the storage of `magic_comment` still holds its compile-time
value after any number of execution steps, in particular after `main` has
returned; no operation of the program mutates or destroys it. -/
theorem magic_comment_runtime_immutable :
    ∀ (env : Int) (n : Nat),
      (stepN n (initMachine env)).magic = magic_comment ∧
      (runMain env).magic = magic_comment :=
  fun env n => ⟨(stepN_magic n (initMachine env)).trans rfl, rfl⟩

/-- Claim C7: running `main` changes nothing but standard output: the
storage of `magic_comment` and the environment are exactly as at program
start, and standard output is exactly the initial output extended by the one
console write. -/
theorem main_frame_condition :
    ∀ env : Int,
      (runMain env).magic = (initMachine env).magic ∧
      (runMain env).env = (initMachine env).env ∧
      (runMain env).stdoutBytes =
        (initMachine env).stdoutBytes ++ strBytes "Hello, world!\n" :=
  fun _ => ⟨rfl, rfl, rfl⟩

/-- Claim C8: the `magic_comment` array is exactly 93 bytes: the 92 bytes of
the literal plus one NUL terminator, so it ends in a zero byte. -/
theorem magic_comment_93_bytes :
    magic_comment.length = 93 ∧
    (strBytes magic_comment_literal).length = 92 ∧
    magic_comment = strBytes magic_comment_literal ++ [0] ∧
    magic_comment.getLast? = some 0 :=
  ⟨by decide, by decide, rfl, by decide⟩

/-- Claim C9: any two executions of `main`, whatever their environments,
write identical bytes to standard output and produce identical exit
statuses. -/
theorem main_deterministic :
    ∀ env1 env2 : Int,
      (runMain env1).stdoutBytes = (runMain env2).stdoutBytes ∧
      (runMain env1).exited = (runMain env2).exited :=
  fun _ _ => ⟨rfl, rfl⟩

/-- Claim C10: every execution of `main` terminates: after finitely many
steps the machine has recorded exit status 0, and it stays halted at every
later step. -/
theorem main_terminates :
    ∀ env : Int, ∃ n : Nat,
      (stepN n (initMachine env)).exited = some 0 ∧
      ∀ k : Nat, (stepN (n + k) (initMachine env)).exited = some 0 := by
  intro env
  refine ⟨2, rfl, ?_⟩
  intro k
  rw [Nat.add_comm]
  show (stepN k (step (step (initMachine env)))).exited = some 0
  rw [stepN_of_exited k _ 0 rfl]
  rfl

end Hello
